import Mathlib

/-
Verification of the HTTP response-normalization layer of the test-automation
repository (src/api/auth_api.py, src/api/events_api.py, src/api/client.py).

The Python client issues an HTTP request and normalizes the raw result into a
dataclass outcome record.  The raw result of the transport call is abstracted
as `RawInput`: either a completed response (status code plus body) or one of
the exception classes the code's handlers distinguish (requests.exceptions.
Timeout, requests.exceptions.RequestException, or any other Exception).
Request construction (URL joining, payload serialization, query parameters,
headers) only determines what is sent on the wire and has no effect on how a
given raw result is normalized, so it is absorbed into the `RawInput`
abstraction; the descriptor arguments are kept in the signatures for fidelity.

Response bodies are modelled as empty, malformed (non-empty but not valid
JSON), or a JSON object (the shape every handler expects; well-formed JSON
non-object bodies are outside the model).  `response.json()` on an empty or
malformed body raises requests.exceptions.JSONDecodeError, which subclasses
RequestException (requests >= 2.27), which subclasses Exception; the Lean
definitions inline the resulting control flow branch by branch.

Python `None` and JSON `null` are the same runtime object, so an optional
record field holds `none` both when never assigned and when assigned a parsed
JSON null; `pyDictGet`/`pyDictGetD` build that collapse into dictionary lookup.
-/

set_option linter.unusedVariables false

namespace Aviasales

/-- A JSON value as produced by parsing a response body.  JSON null is kept as
a constructor at rest inside objects and arrays; reading it out of a dict
yields Python `None`, i.e. `Option.none` (see `pyDictGet`). -/
inductive Json where
  | null
  | str (s : String)
  | num (n : Int)
  | bool (b : Bool)
  | arr (elems : List Json)
  | obj (fields : List (String × Json))

/-- Whether a JSON value is a list.  Used to state the list-shape claim about
the `events` payload field. -/
def Json.isArr : Json → Bool
  | .arr _ => true
  | _ => false

/-- Whether a JSON value is an object (a Python dict after parsing). -/
def Json.isObj : Json → Bool
  | .obj _ => true
  | _ => false

/-- Whether a JSON value is null (the Python None object after parsing). -/
def Json.isNull : Json → Bool
  | .null => true
  | _ => false

/-- A received response body: empty (falsy `response.content`), non-empty but
not valid JSON, or a JSON object. -/
inductive Body where
  | empty
  | malformed
  | jdict (fields : List (String × Json))

/-- A Python exception that escapes a client method.  `nameError` carries the
undefined name; `otherExc` stands for any exception that is not a
requests.exceptions.RequestException (so no handler below catches it where
only Timeout/RequestException handlers exist). -/
inductive PyExc where
  | nameError (name : String)
  | typeError
  | attributeError
  | otherExc (msg : String)
deriving DecidableEq

/-- The raw result of the transport call made inside a client method: a
completed HTTP response, a requests Timeout, another RequestException, or an
arbitrary internal exception (any other Exception subclass). -/
inductive RawInput where
  | response (status : Nat) (body : Body)
  | timeoutExc
  | requestExc (msg : String)
  | internalExc (msg : String)

/-- True exactly on completed HTTP responses. -/
def isResponse : RawInput → Bool
  | .response _ _ => true
  | _ => false

/-- Models Python `str(e)` for the exception inputs: `str` of a bare
`Timeout()` is the empty string; the other two carry their message. -/
def excText : RawInput → String
  | .timeoutExc => ""
  | .requestExc m => m
  | .internalExc m => m
  | .response _ _ => ""

/-- The `str()` of the JSONDecodeError raised by `response.json()` on an
empty or malformed body (a fixed diagnostic text; its exact wording carries
no behavioral contract). -/
def jsonDecodeMsg : String := "Expecting value"

/-- Models Python `d.get(key)` on a parsed JSON object: absent key gives
`None`; a present JSON null is the `None` object itself, so it also reads
back as `none`. -/
def pyDictGet (fields : List (String × Json)) (key : String) : Option Json :=
  match fields.lookup key with
  | some .null => none
  | some v => some v
  | none => none

/-- Models Python `d.get(key, dflt)`: the default is used only when the key
is absent; a present JSON null reads back as `None`, not as the default. -/
def pyDictGetD (fields : List (String × Json)) (key : String) (dflt : Json) : Option Json :=
  match fields.lookup key with
  | some .null => none
  | some v => some v
  | none => some dflt

/-- Python truthiness of a parsed JSON value (`if response.events:`). -/
def pyTruthy : Json → Bool
  | .null => false
  | .str s => !s.isEmpty
  | .num n => n != 0
  | .bool b => b
  | .arr elems => !elems.isEmpty
  | .obj fields => !fields.isEmpty

/-- Models Python `for x in v`: lists iterate their elements, strings their
one-character substrings, dicts their keys; other values raise TypeError. -/
def pyIterate : Json → Except PyExc (List Json)
  | .arr elems => .ok elems
  | .str s => .ok (s.data.map fun c => .str (String.mk [c]))
  | .obj fields => .ok (fields.map fun kv => .str kv.1)
  | _ => .error .typeError

/-- User descriptor (config/test_data.py UserData): request-side data only. -/
structure UserData where
  email : String
  password : String
  first_name : String
  last_name : String
  phone : String
deriving DecidableEq

/-- Event descriptor (config/test_data.py EventData): request-side data only.
Timestamps are abstracted as naturals; they are only ever serialized into the
outgoing payload. -/
structure EventData where
  title : String
  description : String
  start_date : Nat
  end_date : Nat
  location : String
  reminder_minutes : Int := 30
  is_recurring : Bool := false
  recurrence_pattern : Option String := none
deriving DecidableEq

/-- Outcome record of auth operations (auth_api.py AuthResponse dataclass).
Optional fields default to none exactly as the dataclass defaults to None. -/
structure AuthResponse where
  success : Bool
  token : Option Json := none
  user_id : Option Json := none
  message : Option Json := none
  status_code : Option Nat := none
  error : Option Json := none

/-- Outcome record of single-event operations (events_api.py EventResponse). -/
structure EventResponse where
  success : Bool
  event_id : Option Json := none
  data : Option (List (String × Json)) := none
  message : Option Json := none
  status_code : Option Nat := none
  error : Option Json := none

/-- Outcome record of the list operation (events_api.py EventsListResponse).
The dataclass declares `events: List = None` and `total: int = 0`, and its
post-init hook replaces a None `events` with `[]`; the field default here is
therefore the empty JSON list, and every constructor site that passes an
events value routes it through that same None-to-empty collapse. -/
structure EventsListResponse where
  success : Bool
  events : Json := .arr []
  total : Option Json := some (.num 0)
  message : Option Json := none
  status_code : Option Nat := none
  error : Option Json := none

/-- Models AuthAPI.login (auth_api.py lines 43-107).  On a 200 response the
body is parsed and token, user id and message are read by key lookup (message
defaulting to the fixed success string); on any other status the error body is
parsed when `response.content` is truthy, with a fixed error fallback.  A
JSONDecodeError from `response.json()` (empty or malformed body on either
branch) is caught by `except RequestException` and becomes the network-error
outcome; `except Timeout` comes first and `except Exception` last. -/
def login (email password : String) (input : RawInput) : AuthResponse :=
  match input with
  | .response status body =>
    if status = 200 then
      match body with
      | .jdict data =>
        { success := true
          token := pyDictGet data "token"
          user_id := pyDictGet data "user_id"
          message := pyDictGetD data "message" (.str "Авторизация успешна")
          status_code := some status }
      | _ =>
        { success := false, error := some (.str "Ошибка сети")
          message := some (.str jsonDecodeMsg) }
    else
      match body with
      | .jdict errorData =>
        { success := false
          status_code := some status
          error := pyDictGetD errorData "error" (.str "Ошибка авторизации")
          message := pyDictGet errorData "message" }
      | .empty =>
        { success := false
          status_code := some status
          error := some (.str "Ошибка авторизации") }
      | .malformed =>
        { success := false, error := some (.str "Ошибка сети")
          message := some (.str jsonDecodeMsg) }
  | .timeoutExc =>
    { success := false
      error := some (.str "Таймаут соединения")
      message := some (.str "Превышено время ожидания ответа от сервера") }
  | .requestExc m =>
    { success := false, error := some (.str "Ошибка сети"), message := some (.str m) }
  | .internalExc m =>
    { success := false, error := some (.str "Внутренняя ошибка"), message := some (.str m) }

/-- Models AuthAPI.login_with_user_data (auth_api.py lines 110-120): delegates
to login with the descriptor's email and password. -/
def login_with_user_data (user_data : UserData) (input : RawInput) : AuthResponse :=
  login user_data.email user_data.password input

/-- Models AuthAPI.logout (auth_api.py lines 123-164).  The body is never
read: 200 gives the fixed success outcome, any other status the fixed error
string with the status code.  The single `except Exception` handler maps every
exception to the network-error outcome with `message = str(e)`. -/
def logout (token : String) (input : RawInput) : AuthResponse :=
  match input with
  | .response status _ =>
    if status = 200 then
      { success := true
        message := some (.str "Выход выполнен успешно")
        status_code := some status }
    else
      { success := false
        status_code := some status
        error := some (.str "Ошибка выхода из системы") }
  | exc =>
    { success := false, error := some (.str "Ошибка сети")
      message := some (.str (excText exc)) }

/-- Models AuthAPI.validate_token (auth_api.py lines 167-210).  On 200 the
body is parsed for user_id; a JSONDecodeError there falls into the single
`except Exception` handler.  On any other status the fixed invalid-token
string is used and the body is never read. -/
def validate_token (token : String) (input : RawInput) : AuthResponse :=
  match input with
  | .response status body =>
    if status = 200 then
      match body with
      | .jdict data =>
        { success := true
          user_id := pyDictGet data "user_id"
          message := some (.str "Токен валиден")
          status_code := some status }
      | _ =>
        { success := false, error := some (.str "Ошибка сети")
          message := some (.str jsonDecodeMsg) }
    else
      { success := false
        status_code := some status
        error := some (.str "Токен невалиден") }
  | exc =>
    { success := false, error := some (.str "Ошибка сети")
      message := some (.str (excText exc)) }

/-- Models AuthAPI.refresh_token (auth_api.py lines 244-285).  Same shape as
validate_token: 200 parses the body for the new token, any other status gives
the fixed refresh-error string without reading the body, and the single
`except Exception` handler maps every exception to the network-error
outcome. -/
def refresh_token (rtoken : String) (input : RawInput) : AuthResponse :=
  match input with
  | .response status body =>
    if status = 200 then
      match body with
      | .jdict data =>
        { success := true
          token := pyDictGet data "token"
          message := some (.str "Токен обновлен")
          status_code := some status }
      | _ =>
        { success := false, error := some (.str "Ошибка сети")
          message := some (.str jsonDecodeMsg) }
    else
      { success := false
        status_code := some status
        error := some (.str "Ошибка обновления токена") }
  | exc =>
    { success := false, error := some (.str "Ошибка сети")
      message := some (.str (excText exc)) }

/-- Models AuthAPI.register (auth_api.py lines 288-340).  Success code is
201: the body is parsed for token and user id.  On any other status the error
body is parsed when non-empty with the fixed registration-error fallback.
The single `except Exception` handler maps every exception, including a
JSONDecodeError from either `response.json()` call, to the network-error
outcome. -/
def register (user_data : UserData) (input : RawInput) : AuthResponse :=
  match input with
  | .response status body =>
    if status = 201 then
      match body with
      | .jdict data =>
        { success := true
          token := pyDictGet data "token"
          user_id := pyDictGet data "user_id"
          message := some (.str "Регистрация успешна")
          status_code := some status }
      | _ =>
        { success := false, error := some (.str "Ошибка сети")
          message := some (.str jsonDecodeMsg) }
    else
      match body with
      | .jdict errorData =>
        { success := false
          status_code := some status
          error := pyDictGetD errorData "error" (.str "Ошибка регистрации")
          message := pyDictGet errorData "message" }
      | .empty =>
        { success := false
          status_code := some status
          error := some (.str "Ошибка регистрации") }
      | .malformed =>
        { success := false, error := some (.str "Ошибка сети")
          message := some (.str jsonDecodeMsg) }
  | exc =>
    { success := false, error := some (.str "Ошибка сети")
      message := some (.str (excText exc)) }

/-- Models EventsAPI.create_event (events_api.py lines 110-163).  Success code
is 201: the body is parsed, the event id read from key "id" and the whole
parsed body stored in `data`.  On any other status the error body is parsed
when non-empty with the fixed creation-error fallback.  The handlers are
`except Timeout` and `except RequestException` ONLY: an exception that is not
a RequestException (modelled by `RawInput.internalExc`) propagates out of the
method, hence the `Except` result type.  A JSONDecodeError from
`response.json()` is a RequestException and becomes the network-error
outcome. -/
def create_event (event_data : EventData) (input : RawInput) :
    Except PyExc EventResponse :=
  match input with
  | .response status body =>
    if status = 201 then
      match body with
      | .jdict data =>
        .ok { success := true
              event_id := pyDictGet data "id"
              data := some data
              message := some (.str "Событие создано успешно")
              status_code := some status }
      | _ =>
        .ok { success := false, error := some (.str "Ошибка сети")
              message := some (.str jsonDecodeMsg) }
    else
      match body with
      | .jdict errorData =>
        .ok { success := false
              status_code := some status
              error := pyDictGetD errorData "error" (.str "Ошибка создания события")
              message := pyDictGet errorData "message" }
      | .empty =>
        .ok { success := false
              status_code := some status
              error := some (.str "Ошибка создания события") }
      | .malformed =>
        .ok { success := false, error := some (.str "Ошибка сети")
              message := some (.str jsonDecodeMsg) }
  | .timeoutExc =>
    .ok { success := false
          error := some (.str "Таймаут соединения")
          message := some (.str "Превышено время ожидания ответа от сервера") }
  | .requestExc m =>
    .ok { success := false, error := some (.str "Ошибка сети"), message := some (.str m) }
  | .internalExc m => .error (.otherExc m)

/-- Models EventsAPI.get_event (events_api.py lines 166-216).  200 parses the
body and echoes the requested id into `event_id`; 404 gives the fixed
not-found outcome without reading the body; any other status parses the error
body when non-empty with the fixed retrieval-error fallback.  The single
`except Exception` handler maps every exception (timeouts and JSON decode
errors included) to the network-error outcome with `message = str(e)`. -/
def get_event (event_id : String) (input : RawInput) : EventResponse :=
  match input with
  | .response status body =>
    if status = 200 then
      match body with
      | .jdict data =>
        { success := true
          event_id := some (.str event_id)
          data := some data
          message := some (.str "Событие получено успешно")
          status_code := some status }
      | _ =>
        { success := false, error := some (.str "Ошибка сети")
          message := some (.str jsonDecodeMsg) }
    else if status = 404 then
      { success := false
        status_code := some status
        error := some (.str "Событие не найдено") }
    else
      match body with
      | .jdict errorData =>
        { success := false
          status_code := some status
          error := pyDictGetD errorData "error" (.str "Ошибка получения события")
          message := pyDictGet errorData "message" }
      | .empty =>
        { success := false
          status_code := some status
          error := some (.str "Ошибка получения события") }
      | .malformed =>
        { success := false, error := some (.str "Ошибка сети")
          message := some (.str jsonDecodeMsg) }
  | exc =>
    { success := false, error := some (.str "Ошибка сети")
      message := some (.str (excText exc)) }

/-- Models EventsAPI.update_event (events_api.py lines 219-272).  Same shape
as get_event with the update strings: 200 success, 404 fixed not-found, other
statuses parse the error body with the fixed update-error fallback, single
`except Exception` network-error handler. -/
def update_event (event_id : String) (event_data : EventData) (input : RawInput) :
    EventResponse :=
  match input with
  | .response status body =>
    if status = 200 then
      match body with
      | .jdict data =>
        { success := true
          event_id := some (.str event_id)
          data := some data
          message := some (.str "Событие обновлено успешно")
          status_code := some status }
      | _ =>
        { success := false, error := some (.str "Ошибка сети")
          message := some (.str jsonDecodeMsg) }
    else if status = 404 then
      { success := false
        status_code := some status
        error := some (.str "Событие не найдено") }
    else
      match body with
      | .jdict errorData =>
        { success := false
          status_code := some status
          error := pyDictGetD errorData "error" (.str "Ошибка обновления события")
          message := pyDictGet errorData "message" }
      | .empty =>
        { success := false
          status_code := some status
          error := some (.str "Ошибка обновления события") }
      | .malformed =>
        { success := false, error := some (.str "Ошибка сети")
          message := some (.str jsonDecodeMsg) }
  | exc =>
    { success := false, error := some (.str "Ошибка сети")
      message := some (.str (excText exc)) }

/-- Models EventsAPI.delete_event (events_api.py lines 275-322).  Success code
is 204 and the body is never read on it; 404 gives the fixed not-found
outcome; any other status parses the error body when non-empty with the fixed
deletion-error fallback; single `except Exception` network-error handler. -/
def delete_event (event_id : String) (input : RawInput) : EventResponse :=
  match input with
  | .response status body =>
    if status = 204 then
      { success := true
        message := some (.str "Событие удалено успешно")
        status_code := some status }
    else if status = 404 then
      { success := false
        status_code := some status
        error := some (.str "Событие не найдено") }
    else
      match body with
      | .jdict errorData =>
        { success := false
          status_code := some status
          error := pyDictGetD errorData "error" (.str "Ошибка удаления события")
          message := pyDictGet errorData "message" }
      | .empty =>
        { success := false
          status_code := some status
          error := some (.str "Ошибка удаления события") }
      | .malformed =>
        { success := false, error := some (.str "Ошибка сети")
          message := some (.str jsonDecodeMsg) }
  | exc =>
    { success := false, error := some (.str "Ошибка сети")
      message := some (.str (excText exc)) }

/-- Models EventsAPI.get_events (events_api.py lines 325-394).  The filter
arguments only shape the outgoing query parameters.  On 200 the body is
parsed: `events` is read with default `[]` and routed through the dataclass
post-init None-to-empty collapse, `total` with default `0`.  Any other status
parses the error body when non-empty with the fixed list-error fallback; the
single `except Exception` handler maps every exception to the network-error
outcome, whose `events`/`total` take the dataclass defaults. -/
def get_events (limit offset : Int) (search : Option String)
    (start_date end_date : Option Nat) (input : RawInput) : EventsListResponse :=
  match input with
  | .response status body =>
    if status = 200 then
      match body with
      | .jdict data =>
        { success := true
          events := (pyDictGetD data "events" (.arr [])).getD (.arr [])
          total := pyDictGetD data "total" (.num 0)
          message := some (.str "Список событий получен успешно")
          status_code := some status }
      | _ =>
        { success := false, error := some (.str "Ошибка сети")
          message := some (.str jsonDecodeMsg) }
    else
      match body with
      | .jdict errorData =>
        { success := false
          status_code := some status
          error := pyDictGetD errorData "error" (.str "Ошибка получения списка событий")
          message := pyDictGet errorData "message" }
      | .empty =>
        { success := false
          status_code := some status
          error := some (.str "Ошибка получения списка событий") }
      | .malformed =>
        { success := false, error := some (.str "Ошибка сети")
          message := some (.str jsonDecodeMsg) }
  | exc =>
    { success := false, error := some (.str "Ошибка сети")
      message := some (.str (excText exc)) }

/-- Models EventsAPI.search_events_by_title (events_api.py lines 396-407):
delegates to get_events with the default pagination and the title as the
search term. -/
def search_events_by_title (title : String) (input : RawInput) : EventsListResponse :=
  get_events 50 0 (some title) none none input

/-- Models EventsAPI.get_upcoming_events (events_api.py lines 409-423).  The
body evaluates `datetime.now().replace(...) + timedelta(days=days)`, but the
module imports only `datetime` from the datetime module (line 9): the name
`timedelta` is undefined, so every call raises NameError before any request
is issued, and there is no try block in this method to catch it. -/
def get_upcoming_events (days : Int) : Except PyExc EventsListResponse :=
  .error (.nameError "timedelta")

/-- Models the Python comparison `event.get(...) == title` where `title` is a
str: true exactly when the looked-up value is that same string; `None` and
non-string values never compare equal to a str. -/
def pyEqStr (v : Option Json) (t : String) : Bool :=
  match v with
  | some (.str s) => s == t
  | _ => false

/-- Whether a scanned event matches the searched title, i.e. the loop guard
`event.get(title_key) == title` on a dict element. -/
def hasTitle (title : String) : Json → Bool
  | .obj fields => pyEqStr (pyDictGet fields "title") title
  | _ => false

/-- The shared scan loop of event_exists and get_event_by_title
(events_api.py lines 438-440 and 456-458): walk the events list in order and
return the first element whose "title" entry equals the searched title.  A
non-dict element reached before a match raises AttributeError (`.get` on a
value with no such attribute), which neither method catches. -/
def findByTitle (title : String) : List Json → Except PyExc (Option Json)
  | [] => .ok none
  | ev :: rest =>
    match ev with
    | .obj fields =>
      if pyEqStr (pyDictGet fields "title") title then .ok (some (.obj fields))
      else findByTitle title rest
    | _ => .error .attributeError

/-- Models EventsAPI.event_exists (events_api.py lines 425-441): search by
title, and when the outcome is successful with a truthy events value, scan
for an exact title match, returning True on the first match and False
otherwise. -/
def event_exists (title : String) (input : RawInput) : Except PyExc Bool :=
  let response := search_events_by_title title input
  if response.success && pyTruthy response.events then
    match pyIterate response.events with
    | .error e => .error e
    | .ok evs =>
      match findByTitle title evs with
      | .error e => .error e
      | .ok found => .ok found.isSome
  else .ok false

/-- Models EventsAPI.get_event_by_title (events_api.py lines 443-459): same
search and scan as event_exists, returning the first matching event dict, or
None when the outcome failed, the events value is falsy, or nothing
matched. -/
def get_event_by_title (title : String) (input : RawInput) :
    Except PyExc (Option Json) :=
  let response := search_events_by_title title input
  if response.success && pyTruthy response.events then
    match pyIterate response.events with
    | .error e => .error e
    | .ok evs => findByTitle title evs
  else .ok none

/-- A raw HTTP response as returned by the requests library to APIClient
callers (api/client.py returns the response object unnormalized). -/
structure HttpResponse where
  status : Nat
  body : Body

/-- Models APIClient.get (api/client.py lines 21-23).  The method builds the
URL and then calls `self.session.get(url, params=params, timeout=TIMEOUT)`,
but the name TIMEOUT is neither defined in client.py nor imported (the file
imports only API_BASE_URL and API_TOKEN): evaluating the argument raises
NameError before the transport is reached, on every call. -/
def APIClient.get (endpoint : String) (params : Option (List (String × Json))) :
    Except PyExc HttpResponse :=
  .error (.nameError "TIMEOUT")

/-- Models APIClient.post (api/client.py lines 25-27): same undefined TIMEOUT
name in the `self.session.post(url, json=data, timeout=TIMEOUT)` call, so
every call raises NameError before the transport is reached. -/
def APIClient.post (endpoint : String) (data : Option (List (String × Json))) :
    Except PyExc HttpResponse :=
  .error (.nameError "TIMEOUT")

/-- A sample event descriptor, used to instantiate descriptor arguments in
closed statements. -/
def sampleEvent : EventData :=
  { title := "Встреча", description := "d", start_date := 0, end_date := 1,
    location := "Москва" }

/-- A sample user descriptor, used to instantiate descriptor arguments in
closed statements. -/
def sampleUser : UserData :=
  { email := "a@b.c", password := "pw", first_name := "A", last_name := "B",
    phone := "1" }

/-- Boolean outcome-record invariant for auth responses: success implies no
error; failure implies the identifier payload fields (token, user_id) are
unset; a set status code implies an HTTP response was received. -/
def authInvariant (input : RawInput) (r : AuthResponse) : Bool :=
  (!r.success || r.error.isNone) &&
  (r.success || (r.token.isNone && r.user_id.isNone)) &&
  (!r.status_code.isSome || isResponse input)

/-- Boolean outcome-record invariant for single-event responses: success
implies no error; failure implies event_id unset; a set status code implies
an HTTP response was received. -/
def eventInvariant (input : RawInput) (r : EventResponse) : Bool :=
  (!r.success || r.error.isNone) &&
  (r.success || r.event_id.isNone) &&
  (!r.status_code.isSome || isResponse input)

/-- Boolean outcome-record invariant for list responses (no identifier
payload field): success implies no error; a set status code implies an HTTP
response was received. -/
def listInvariant (input : RawInput) (r : EventsListResponse) : Bool :=
  (!r.success || r.error.isNone) &&
  (!r.status_code.isSome || isResponse input)

/-- The event invariant lifted over the create_event result: it constrains
every outcome record the method actually returns (a propagated exception
returns none). -/
def exceptEventInvariant (input : RawInput) : Except PyExc EventResponse → Bool
  | .error _ => true
  | .ok r => eventInvariant input r

/-- C1: the claim that every client operation returns an Outcome Record and
never propagates an exception past the client boundary fails on the code:
get_upcoming_events raises NameError on every call (`timedelta` is used but
never imported, events_api.py line 421), and create_event, whose handlers
cover only Timeout and RequestException, propagates any internal exception
that is not a RequestException. -/
theorem client_boundary_exception_escapes :
    get_upcoming_events 7 = .error (.nameError "timedelta") ∧
    create_event sampleEvent (.internalExc "boom") = .error (.otherExc "boom") :=
  ⟨rfl, rfl⟩

/-- C4: the claim that APIClient.get/post issue the request with the fixed
configured timeout fails on the code: the name TIMEOUT used in both calls is
never defined or imported in client.py, so every call raises NameError before
reaching the transport. -/
theorem apiclient_calls_raise_nameError :
    APIClient.get "/users" none = .error (.nameError "TIMEOUT") ∧
    APIClient.post "/users" (some [("name", .str "Test User")]) =
      .error (.nameError "TIMEOUT") :=
  ⟨rfl, rfl⟩

/-- C8: login maps a 200 response with token "abc" and user_id "u1" to a
successful outcome carrying both (message taking its documented default), and
a 401 response with error "bad credentials" to a failed outcome with that
error and status code 401. -/
theorem login_scenarios :
    login "user" "pw"
        (.response 200 (.jdict [("token", .str "abc"), ("user_id", .str "u1")])) =
      { success := true, token := some (.str "abc"), user_id := some (.str "u1"),
        message := some (.str "Авторизация успешна"), status_code := some 200 } ∧
    login "user" "pw" (.response 401 (.jdict [("error", .str "bad credentials")])) =
      { success := false, status_code := some 401,
        error := some (.str "bad credentials") } :=
  ⟨rfl, rfl⟩

/-- C6: get_event, update_event and delete_event map a 404 response to the
failed outcome with status code 404 and the fixed not-found error string,
whatever the response body holds (the body is never consulted). -/
theorem not_found_fixed_error (event_id : String) (event_data : EventData)
    (body : Body) :
    get_event event_id (.response 404 body) =
      { success := false, status_code := some 404,
        error := some (.str "Событие не найдено") } ∧
    update_event event_id event_data (.response 404 body) =
      { success := false, status_code := some 404,
        error := some (.str "Событие не найдено") } ∧
    delete_event event_id (.response 404 body) =
      { success := false, status_code := some 404,
        error := some (.str "Событие не найдено") } :=
  ⟨rfl, rfl, rfl⟩

/-- C2 counterexample: on a transport timeout, get_event does not produce the
fixed connection-timeout error string; its single `except Exception` handler
produces the distinct network-error string instead. -/
theorem timeout_error_string_counterexample :
    (get_event "e1" .timeoutExc).error = some (.str "Ошибка сети") ∧
    ("Ошибка сети" == "Таймаут соединения") = false :=
  ⟨rfl, by decide⟩

/-- C2 (amended): on a transport timeout every operation returns a failed
outcome with status_code unset; login and create_event, which have a
dedicated Timeout handler, set the fixed connection-timeout error string,
while all other operations catch the timeout in their generic handler and set
the fixed network-error string (with message str(e), the empty string for a
bare Timeout). -/
theorem timeout_outcomes (email password token rtoken event_id : String)
    (user_data : UserData) (event_data : EventData) (limit offset : Int)
    (search : Option String) (sd ed : Option Nat) :
    login email password .timeoutExc =
      { success := false, error := some (.str "Таймаут соединения"),
        message := some (.str "Превышено время ожидания ответа от сервера") } ∧
    create_event event_data .timeoutExc =
      .ok { success := false, error := some (.str "Таймаут соединения"),
            message := some (.str "Превышено время ожидания ответа от сервера") } ∧
    logout token .timeoutExc =
      { success := false, error := some (.str "Ошибка сети"),
        message := some (.str "") } ∧
    validate_token token .timeoutExc =
      { success := false, error := some (.str "Ошибка сети"),
        message := some (.str "") } ∧
    refresh_token rtoken .timeoutExc =
      { success := false, error := some (.str "Ошибка сети"),
        message := some (.str "") } ∧
    register user_data .timeoutExc =
      { success := false, error := some (.str "Ошибка сети"),
        message := some (.str "") } ∧
    get_event event_id .timeoutExc =
      { success := false, error := some (.str "Ошибка сети"),
        message := some (.str "") } ∧
    update_event event_id event_data .timeoutExc =
      { success := false, error := some (.str "Ошибка сети"),
        message := some (.str "") } ∧
    delete_event event_id .timeoutExc =
      { success := false, error := some (.str "Ошибка сети"),
        message := some (.str "") } ∧
    get_events limit offset search sd ed .timeoutExc =
      { success := false, error := some (.str "Ошибка сети"),
        message := some (.str "") } :=
  ⟨rfl, rfl, rfl, rfl, rfl, rfl, rfl, rfl, rfl, rfl⟩

/-- C3 counterexample: a 401 response whose non-empty body is not valid JSON
makes login's error-body parse raise; the RequestException handler then
returns an outcome with status_code unset although an HTTP response was
received, refuting the claim that status_code is unset exactly when no
response was received. -/
theorem status_code_unset_despite_response_counterexample :
    isResponse (.response 401 .malformed) = true ∧
    (login "a" "b" (.response 401 .malformed)).status_code = none :=
  ⟨rfl, rfl⟩

/-- The auth invariant holds for every login outcome. -/
lemma login_invariant_aux (email password : String) (input : RawInput) :
    authInvariant input (login email password input) = true := by
  cases input with
  | response status body =>
    cases body <;> simp only [login] <;> split <;>
      simp [authInvariant, isResponse]
  | timeoutExc => rfl
  | requestExc m => rfl
  | internalExc m => rfl

/-- The auth invariant holds for every logout outcome. -/
lemma logout_invariant_aux (token : String) (input : RawInput) :
    authInvariant input (logout token input) = true := by
  cases input with
  | response status body =>
    simp only [logout]
    split <;> simp [authInvariant, isResponse]
  | timeoutExc => rfl
  | requestExc m => rfl
  | internalExc m => rfl

/-- The auth invariant holds for every validate_token outcome. -/
lemma validate_token_invariant_aux (token : String) (input : RawInput) :
    authInvariant input (validate_token token input) = true := by
  cases input with
  | response status body =>
    cases body <;> simp only [validate_token] <;> split <;>
      simp [authInvariant, isResponse]
  | timeoutExc => rfl
  | requestExc m => rfl
  | internalExc m => rfl

/-- The auth invariant holds for every refresh_token outcome. -/
lemma refresh_token_invariant_aux (rtoken : String) (input : RawInput) :
    authInvariant input (refresh_token rtoken input) = true := by
  cases input with
  | response status body =>
    cases body <;> simp only [refresh_token] <;> split <;>
      simp [authInvariant, isResponse]
  | timeoutExc => rfl
  | requestExc m => rfl
  | internalExc m => rfl

/-- The auth invariant holds for every register outcome. -/
lemma register_invariant_aux (user_data : UserData) (input : RawInput) :
    authInvariant input (register user_data input) = true := by
  cases input with
  | response status body =>
    cases body <;> simp only [register] <;> split <;>
      simp [authInvariant, isResponse]
  | timeoutExc => rfl
  | requestExc m => rfl
  | internalExc m => rfl

/-- The event invariant holds for every outcome create_event returns. -/
lemma create_event_invariant_aux (event_data : EventData) (input : RawInput) :
    exceptEventInvariant input (create_event event_data input) = true := by
  cases input with
  | response status body =>
    cases body <;> simp only [create_event] <;> split <;>
      simp [exceptEventInvariant, eventInvariant, isResponse]
  | timeoutExc => rfl
  | requestExc m => rfl
  | internalExc m => rfl

/-- The event invariant holds for every get_event outcome. -/
lemma get_event_invariant_aux (event_id : String) (input : RawInput) :
    eventInvariant input (get_event event_id input) = true := by
  cases input with
  | response status body =>
    cases body <;> simp only [get_event] <;> split <;> (try split) <;>
      simp [eventInvariant, isResponse]
  | timeoutExc => rfl
  | requestExc m => rfl
  | internalExc m => rfl

/-- The event invariant holds for every update_event outcome. -/
lemma update_event_invariant_aux (event_id : String) (event_data : EventData)
    (input : RawInput) :
    eventInvariant input (update_event event_id event_data input) = true := by
  cases input with
  | response status body =>
    cases body <;> simp only [update_event] <;> split <;> (try split) <;>
      simp [eventInvariant, isResponse]
  | timeoutExc => rfl
  | requestExc m => rfl
  | internalExc m => rfl

/-- The event invariant holds for every delete_event outcome. -/
lemma delete_event_invariant_aux (event_id : String) (input : RawInput) :
    eventInvariant input (delete_event event_id input) = true := by
  cases input with
  | response status body =>
    cases body <;> simp only [delete_event] <;> split <;> (try split) <;>
      simp [eventInvariant, isResponse]
  | timeoutExc => rfl
  | requestExc m => rfl
  | internalExc m => rfl

/-- The list invariant holds for every get_events outcome. -/
lemma get_events_invariant_aux (limit offset : Int) (search : Option String)
    (sd ed : Option Nat) (input : RawInput) :
    listInvariant input (get_events limit offset search sd ed input) = true := by
  cases input with
  | response status body =>
    cases body <;> simp only [get_events] <;> split <;>
      simp [listInvariant, isResponse]
  | timeoutExc => rfl
  | requestExc m => rfl
  | internalExc m => rfl

/-- C3 (amended): for every operation and raw input, the returned outcome
record satisfies: success implies the error field is unset; failure implies
the primary identifier payload fields (token, user_id, event_id) are unset;
and a set status_code implies an HTTP response was received (equivalently,
status_code is unset whenever no response was received).  The original
claim's converse — that a received response always yields a set status_code —
is refuted by the counterexample: a body-parse failure is caught by an
exception handler that sets no status code. -/
theorem outcome_invariants (email password token rtoken event_id : String)
    (user_data : UserData) (event_data : EventData) (limit offset : Int)
    (search : Option String) (sd ed : Option Nat) (input : RawInput) :
    authInvariant input (login email password input) = true ∧
    authInvariant input (login_with_user_data user_data input) = true ∧
    authInvariant input (logout token input) = true ∧
    authInvariant input (validate_token token input) = true ∧
    authInvariant input (refresh_token rtoken input) = true ∧
    authInvariant input (register user_data input) = true ∧
    exceptEventInvariant input (create_event event_data input) = true ∧
    eventInvariant input (get_event event_id input) = true ∧
    eventInvariant input (update_event event_id event_data input) = true ∧
    eventInvariant input (delete_event event_id input) = true ∧
    listInvariant input (get_events limit offset search sd ed input) = true :=
  ⟨login_invariant_aux email password input,
   login_invariant_aux user_data.email user_data.password input,
   logout_invariant_aux token input,
   validate_token_invariant_aux token input,
   refresh_token_invariant_aux rtoken input,
   register_invariant_aux user_data input,
   create_event_invariant_aux event_data input,
   get_event_invariant_aux event_id input,
   update_event_invariant_aux event_id event_data input,
   delete_event_invariant_aux event_id input,
   get_events_invariant_aux limit offset search sd ed input⟩

/-- C5 counterexample: logout on a 500 response never reads the body; even
when the body is a JSON object with an error field, the outcome error is the
fixed logout-error string rather than the body's value, refuting the claim
that every operation parses the JSON error body. -/
theorem error_body_ignored_counterexample :
    (logout "t" (.response 500 (.jdict [("error", .str "custom")]))).error =
      some (.str "Ошибка выхода из системы") ∧
    ("Ошибка выхода из системы" == "custom") = false :=
  ⟨rfl, by decide⟩

/-- C5 (amended): on a status that is neither the designated success nor
not-found code, logout, validate_token and refresh_token always set their
fixed per-operation error string without consulting the body, while login,
register, create_event, get_event, update_event, delete_event and get_events
parse a JSON-object body (its error/message entries populate the outcome,
with the fixed per-operation fallback for a missing error entry), use the
fixed fallback directly for an empty body, and, for a non-empty unparsable
body, return the network-error outcome produced by the exception handler that
catches the JSON parse failure. -/
theorem error_body_handling (email password token rtoken event_id : String)
    (user_data : UserData) (event_data : EventData) (limit offset : Int)
    (search : Option String) (sd ed : Option Nat) (status : Nat)
    (fields : List (String × Json)) (body : Body)
    (h200 : status ≠ 200) (h201 : status ≠ 201) (h404 : status ≠ 404)
    (h204 : status ≠ 204) :
    (logout token (.response status body)).error =
        some (.str "Ошибка выхода из системы") ∧
    (validate_token token (.response status body)).error =
        some (.str "Токен невалиден") ∧
    (refresh_token rtoken (.response status body)).error =
        some (.str "Ошибка обновления токена") ∧
    (login email password (.response status (.jdict fields))).error =
        pyDictGetD fields "error" (.str "Ошибка авторизации") ∧
    (login email password (.response status (.jdict fields))).message =
        pyDictGet fields "message" ∧
    (login email password (.response status .empty)).error =
        some (.str "Ошибка авторизации") ∧
    login email password (.response status .malformed) =
      { success := false, error := some (.str "Ошибка сети"),
        message := some (.str jsonDecodeMsg) } ∧
    (register user_data (.response status (.jdict fields))).error =
        pyDictGetD fields "error" (.str "Ошибка регистрации") ∧
    (register user_data (.response status .empty)).error =
        some (.str "Ошибка регистрации") ∧
    create_event event_data (.response status (.jdict fields)) =
      .ok { success := false, status_code := some status,
            error := pyDictGetD fields "error" (.str "Ошибка создания события"),
            message := pyDictGet fields "message" } ∧
    create_event event_data (.response status .empty) =
      .ok { success := false, status_code := some status,
            error := some (.str "Ошибка создания события") } ∧
    (get_event event_id (.response status (.jdict fields))).error =
        pyDictGetD fields "error" (.str "Ошибка получения события") ∧
    (get_event event_id (.response status .empty)).error =
        some (.str "Ошибка получения события") ∧
    (update_event event_id event_data (.response status (.jdict fields))).error =
        pyDictGetD fields "error" (.str "Ошибка обновления события") ∧
    (delete_event event_id (.response status (.jdict fields))).error =
        pyDictGetD fields "error" (.str "Ошибка удаления события") ∧
    (get_events limit offset search sd ed (.response status (.jdict fields))).error =
        pyDictGetD fields "error" (.str "Ошибка получения списка событий") ∧
    (get_events limit offset search sd ed (.response status (.jdict fields))).message =
        pyDictGet fields "message" := by
  refine ⟨?_, ?_, ?_, ?_, ?_, ?_, ?_, ?_, ?_, ?_, ?_, ?_, ?_, ?_, ?_, ?_, ?_⟩ <;>
    simp [logout, validate_token, refresh_token, login, register, create_event,
      get_event, update_event, delete_event, get_events, h200, h201, h404, h204]

/-- C5 witness: the amended statement instantiated at status 500 with an
empty body for logout. -/
theorem error_body_handling_witness :
    (logout "t" (.response 500 Body.empty)).error =
      some (.str "Ошибка выхода из системы") :=
  (error_body_handling "e" "p" "t" "r" "id" sampleUser sampleEvent 50 0 none
      none none 500 [] Body.empty (by decide) (by decide) (by decide)
      (by decide)).1

/-- C7 counterexample: a 200 response to login with an empty body makes
`response.json()` raise; the exception handler returns a failed outcome with
no status code, refuting the claim that the designated success status always
yields success=true with the received code. -/
theorem success_code_empty_body_counterexample :
    (login "a" "b" (.response 200 .empty)).success = false ∧
    (login "a" "b" (.response 200 .empty)).status_code = none :=
  ⟨rfl, rfl⟩

/-- C7 (amended): on its designated success status code (login/logout/
validate/refresh/get/update/list 200, register/create 201, delete 204) each
operation returns success=true with status_code equal to the code received,
provided the body parses as a JSON object for the operations that read the
body; logout and delete_event never read the body and succeed on their code
for any body; a body-reading operation whose success-code body is empty or
unparsable instead returns the network-error outcome from its exception
handler. -/
theorem success_code_outcomes (email password token rtoken event_id : String)
    (user_data : UserData) (event_data : EventData) (limit offset : Int)
    (search : Option String) (sd ed : Option Nat)
    (fields : List (String × Json)) (body : Body) :
    (login email password (.response 200 (.jdict fields))).success = true ∧
    (login email password (.response 200 (.jdict fields))).status_code = some 200 ∧
    (logout token (.response 200 body)).success = true ∧
    (logout token (.response 200 body)).status_code = some 200 ∧
    (validate_token token (.response 200 (.jdict fields))).success = true ∧
    (validate_token token (.response 200 (.jdict fields))).status_code = some 200 ∧
    (refresh_token rtoken (.response 200 (.jdict fields))).success = true ∧
    (refresh_token rtoken (.response 200 (.jdict fields))).status_code = some 200 ∧
    (register user_data (.response 201 (.jdict fields))).success = true ∧
    (register user_data (.response 201 (.jdict fields))).status_code = some 201 ∧
    create_event event_data (.response 201 (.jdict fields)) =
      .ok { success := true, event_id := pyDictGet fields "id",
            data := some fields,
            message := some (.str "Событие создано успешно"),
            status_code := some 201 } ∧
    (get_event event_id (.response 200 (.jdict fields))).success = true ∧
    (get_event event_id (.response 200 (.jdict fields))).status_code = some 200 ∧
    (update_event event_id event_data (.response 200 (.jdict fields))).success = true ∧
    (update_event event_id event_data (.response 200 (.jdict fields))).status_code =
        some 200 ∧
    (delete_event event_id (.response 204 body)).success = true ∧
    (delete_event event_id (.response 204 body)).status_code = some 204 ∧
    (get_events limit offset search sd ed (.response 200 (.jdict fields))).success =
        true ∧
    (get_events limit offset search sd ed (.response 200 (.jdict fields))).status_code =
        some 200 ∧
    login email password (.response 200 .empty) =
      { success := false, error := some (.str "Ошибка сети"),
        message := some (.str jsonDecodeMsg) } :=
  ⟨rfl, rfl, rfl, rfl, rfl, rfl, rfl, rfl, rfl, rfl,
   rfl, rfl, rfl, rfl, rfl, rfl, rfl, rfl, rfl, rfl⟩

/-- The two derived title helpers agree on every raw input: event_exists
returns true exactly when get_event_by_title returns an event, and the two
raise identically, because they run the same search and the same scan. -/
lemma exists_eq_byTitle_aux (t : String) (input : RawInput) :
    event_exists t input = Except.map Option.isSome (get_event_by_title t input) := by
  simp only [event_exists, get_event_by_title]
  by_cases hc : ((search_events_by_title t input).success &&
      pyTruthy (search_events_by_title t input).events) = true
  · simp only [if_pos hc]
    cases hit : pyIterate (search_events_by_title t input).events with
    | error e => rfl
    | ok evs =>
      simp only []
      cases hft : findByTitle t evs with
      | error e => rfl
      | ok found => rfl
  · simp only [if_neg hc]
    rfl

/-- Over a successful list response carrying an events array, the title
lookup reduces to the scan of that array (the empty array is falsy, so the
scan is skipped, with the same result as scanning nothing). -/
lemma byTitle_response_aux (t : String) (xs : List Json) (n : Int) :
    get_event_by_title t
        (.response 200 (.jdict [("events", .arr xs), ("total", .num n)])) =
      findByTitle t xs := by
  cases xs <;> rfl

/-- On a list of event dicts, the scan returns the first element whose title
entry equals the searched title, in list order. -/
lemma findByTitle_find_aux (t : String) (xs : List Json)
    (hobj : xs.all Json.isObj = true) :
    findByTitle t xs = .ok (xs.find? (hasTitle t)) := by
  induction xs with
  | nil => rfl
  | cons a l ih =>
    simp only [List.all_cons, Bool.and_eq_true] at hobj
    obtain ⟨ha, hl⟩ := hobj
    cases a with
    | obj fields =>
      by_cases hm : pyEqStr (pyDictGet fields "title") t = true
      · simp [findByTitle, hm, List.find?_cons, hasTitle]
      · simp [findByTitle, hm, hasTitle, List.find?_cons, ih hl]
    | null => simp [Json.isObj] at ha
    | str s => simp [Json.isObj] at ha
    | num m => simp [Json.isObj] at ha
    | bool b => simp [Json.isObj] at ha
    | arr es => simp [Json.isObj] at ha

/-- C9: event_exists and get_event_by_title agree on every input
(exists-by-title is true exactly when get-by-title returns an event); over a
successful list response both reduce to the linear scan `findByTitle`, which
returns the first exact title match of the returned list (stated via
`List.find?`); and over a successful response with an empty events list
event_exists returns false. -/
theorem title_scan_properties (t : String) (input : RawInput) (xs : List Json)
    (n : Int) (hobj : xs.all Json.isObj = true) :
    event_exists t input = Except.map Option.isSome (get_event_by_title t input) ∧
    get_event_by_title t
        (.response 200 (.jdict [("events", .arr xs), ("total", .num n)])) =
      findByTitle t xs ∧
    findByTitle t xs = .ok (xs.find? (hasTitle t)) ∧
    (search_events_by_title t
        (.response 200 (.jdict [("events", .arr []), ("total", .num 0)]))).success =
      true ∧
    (search_events_by_title t
        (.response 200 (.jdict [("events", .arr []), ("total", .num 0)]))).events =
      .arr [] ∧
    event_exists t
        (.response 200 (.jdict [("events", .arr []), ("total", .num 0)])) =
      .ok false :=
  ⟨exists_eq_byTitle_aux t input, byTitle_response_aux t xs n,
   findByTitle_find_aux t xs hobj, rfl, rfl, rfl⟩

/-- C9 witness: the scan properties instantiated at a one-element list of
event dicts whose title matches. -/
theorem title_scan_properties_witness :
    findByTitle "Встреча" [Json.obj [("title", Json.str "Встреча")]] =
      .ok (List.find? (hasTitle "Встреча")
        [Json.obj [("title", Json.str "Встреча")]]) :=
  (title_scan_properties "Встреча" RawInput.timeoutExc
      [Json.obj [("title", Json.str "Встреча")]] 1 (by decide)).2.2.1

/-- C10 counterexample: a 200 list response whose events entry holds the JSON
number 5 stores that value as-is in the outcome, so the events field is not a
list, refuting the claim that the events field is always a list. -/
theorem events_not_list_counterexample :
    (get_events 50 0 none none none
        (.response 200 (.jdict [("events", .num 5)]))).events = .num 5 ∧
    Json.isArr (.num 5) = false :=
  ⟨rfl, rfl⟩

/-- The events field of a list outcome is never None: every failure outcome
takes the dataclass default, and the post-init collapse turns an absent or
null events entry into the empty list; a present non-null entry is stored
as-is and is some other constructor. -/
lemma get_events_events_not_null_aux (limit offset : Int) (search : Option String)
    (sd ed : Option Nat) (input : RawInput) :
    Json.isNull (get_events limit offset search sd ed input).events = false := by
  cases input with
  | response status body =>
    cases body with
    | jdict data =>
      simp only [get_events]
      split
      · cases hl : data.lookup "events" with
        | none => simp [pyDictGetD, hl, Json.isNull]
        | some v => cases v <;> simp [pyDictGetD, hl, Json.isNull]
      · simp [Json.isNull]
    | empty =>
      simp only [get_events]
      split <;> simp [Json.isNull]
    | malformed =>
      simp only [get_events]
      split <;> simp [Json.isNull]
  | timeoutExc => rfl
  | requestExc m => rfl
  | internalExc m => rfl

/-- Every failed list outcome carries the defaults: empty events list and
total 0. -/
lemma get_events_failure_defaults_aux (limit offset : Int) (search : Option String)
    (sd ed : Option Nat) (input : RawInput) :
    (get_events limit offset search sd ed input).success = false →
      (get_events limit offset search sd ed input).events = .arr [] ∧
      (get_events limit offset search sd ed input).total = some (.num 0) := by
  cases input with
  | response status body =>
    cases body <;> simp only [get_events] <;> split <;> simp
  | timeoutExc => intro h; exact ⟨rfl, rfl⟩
  | requestExc m => intro h; exact ⟨rfl, rfl⟩
  | internalExc m => intro h; exact ⟨rfl, rfl⟩

/-- C10 (amended): the events field of every list outcome (and of the derived
title search, which delegates to get_events) is never None: failure outcomes
carry the empty list and total 0, and a 200 body whose events entry is absent
or JSON null also yields the empty list; but a non-list JSON value under the
events entry of a 200 body is stored unchanged, so the field is a list except
in that case. -/
theorem events_field_defaults (limit offset : Int) (search : Option String)
    (sd ed : Option Nat) (input : RawInput) (t : String)
    (fields : List (String × Json)) :
    Json.isNull (get_events limit offset search sd ed input).events = false ∧
    ((get_events limit offset search sd ed input).success = false →
      (get_events limit offset search sd ed input).events = .arr [] ∧
      (get_events limit offset search sd ed input).total = some (.num 0)) ∧
    search_events_by_title t input = get_events 50 0 (some t) none none input ∧
    (fields.lookup "events" = none →
      (get_events limit offset search sd ed
          (.response 200 (.jdict fields))).events = .arr []) ∧
    (get_events limit offset search sd ed
        (.response 200 (.jdict (("events", Json.null) :: fields)))).events =
      .arr [] := by
  refine ⟨get_events_events_not_null_aux limit offset search sd ed input,
    get_events_failure_defaults_aux limit offset search sd ed input,
    rfl, fun h => ?_, rfl⟩
  simp [get_events, pyDictGetD, h]

/-- C10 witness: the amended statement instantiated at a timeout input, whose
failed outcome carries the defaults. -/
theorem events_field_defaults_witness :
    (get_events 50 0 none none none RawInput.timeoutExc).events = .arr [] ∧
    (get_events 50 0 none none none RawInput.timeoutExc).total = some (.num 0) :=
  (events_field_defaults 50 0 none none none RawInput.timeoutExc "t" []).2.1 rfl

end Aviasales
